import Mathlib

/-!
Verification of the ArangoDB dispatcher worker thread
(`arangod/Dispatcher/DispatcherThread.cpp`) and of the shell factory
(`lib/Utilities/ShellImplFactory.cpp`).

The C++ is embedded shallowly:

* `DispatcherThread.handleJob` models the failure-contained execution
  wrapper `DispatcherThread::handleJob`.  A job's `work()`, `handleError`
  and `cleanup` calls are external callbacks, so a `Job` records their
  outcome (success, or which kind of fault they raise); `handleJob`
  replays the wrapper's try/catch structure on those outcomes and reports
  which errors were routed to `handleError`, how many `handleError` calls
  themselves failed (each is logged and swallowed by the C++), whether
  `cleanup` ran, and whether an exception escaped `handleJob`.
  The model assumes a POSIX build (`TRI_HAVE_POSIX_THREADS` defined), so
  the re-throw branches guarded by that `#ifdef` are active.

* `DispatcherThread.runAux` models the scheduling loop of
  `DispatcherThread::run`.  The environment of one `while` iteration
  (the observed `_stopping` flag, the results of the `_readyJobs.pop`
  drain, the emptiness re-check under `_waitLock`, the `tooManyThreads()`
  answer, and the `TRI_microtime()` sample taken at the top of the
  iteration) is an `IterEnv`; the loop consumes a list of such
  environments and produces the trace of its observable actions as a
  list of `Event`s.  Times are in integral microseconds, so the `double`
  grace window `0.2` seconds is `200000`.
-/

namespace DispatcherThread

/-- Error codes used by the wrapper, from `lib/Basics/voc-errors.h`
(`TRI_ERROR_OUT_OF_MEMORY`, `TRI_ERROR_INTERNAL`); only their identity
matters here. -/
def TRI_ERROR_OUT_OF_MEMORY : Nat := 3

/-- Error code `TRI_ERROR_INTERNAL` from `lib/Basics/voc-errors.h`. -/
def TRI_ERROR_INTERNAL : Nat := 4

/-- An `arangodb::basics::Exception`: an error code plus a message. -/
structure Exc where
  code : Nat
  message : String
deriving Repr, DecidableEq

/-- Outcome of a job's `work()` call, one case per catch clause of
`handleJob`: success, an `Exception` (domain error), a `std::bad_alloc`,
another `std::exception`, or a completely unrecognized fault caught only
by `catch (...)`. -/
inductive WorkOutcome
  | ok
  | excFault (e : Exc)
  | badAlloc (msg : String)
  | stdFault (msg : String)
  | unknownFault
deriving Repr, DecidableEq

/-- A popped job, described by the behaviour of its callbacks:
what `work()` does, whether `handleError e` raises (any raised kind is
treated identically by the wrapper: logged and swallowed), and whether
`cleanup(queue)` raises. -/
structure Job where
  name : String
  workOutcome : WorkOutcome
  handleErrorFails : Exc → Bool
  cleanupFails : Bool

/-- Observable result of the `work()` phase of `handleJob` (the first
try/catch block): the errors passed to `job->handleError`, how many of
those handler calls failed (each failure is logged and swallowed), and
whether an exception propagated out of the block (skipping cleanup). -/
structure WorkPhaseResult where
  errorsHandled : List Exc
  handlerFailures : Nat
  propagated : Bool
deriving Repr, DecidableEq

/-- The first try/catch block of `DispatcherThread::handleJob`:
run `work()`; an `Exception` is passed to `handleError` as is; a
`bad_alloc` is wrapped as `TRI_ERROR_OUT_OF_MEMORY`; a `std::exception`
is wrapped as `TRI_ERROR_INTERNAL`; an unrecognized fault is re-thrown
when `_stopping` is set, otherwise wrapped as `TRI_ERROR_INTERNAL` with
a generic message.  Every failure of `handleError` itself is caught,
logged and swallowed. -/
def workPhase (stopping : Bool) (j : Job) : WorkPhaseResult :=
  match j.workOutcome with
  | WorkOutcome.ok => ⟨[], 0, false⟩
  | WorkOutcome.excFault e =>
      ⟨[e], if j.handleErrorFails e then 1 else 0, false⟩
  | WorkOutcome.badAlloc msg =>
      let e : Exc :=
        ⟨TRI_ERROR_OUT_OF_MEMORY, "job failed with bad_alloc: " ++ msg⟩
      ⟨[e], if j.handleErrorFails e then 1 else 0, false⟩
  | WorkOutcome.stdFault msg =>
      let e : Exc :=
        ⟨TRI_ERROR_INTERNAL, "job failed with error: " ++ msg⟩
      ⟨[e], if j.handleErrorFails e then 1 else 0, false⟩
  | WorkOutcome.unknownFault =>
      if stopping then ⟨[], 0, true⟩
      else
        let e : Exc := ⟨TRI_ERROR_INTERNAL, "job failed with unknown error"⟩
        ⟨[e], if j.handleErrorFails e then 1 else 0, false⟩

/-- Observable result of a full `handleJob` call. -/
structure HandleJobResult where
  errorsHandled : List Exc
  handlerFailures : Nat
  cleanupCalls : Nat
  propagated : Bool
deriving Repr, DecidableEq

/-- `DispatcherThread::handleJob`: the `work()` phase followed by the
cleanup block.  If the work phase re-threw (unrecognized fault while
stopping), the exception escapes before `job->cleanup(_queue)` is
reached.  Otherwise `cleanup` runs; if it raises, `catch (...)` re-throws
when `_stopping` is set and logs and swallows otherwise. -/
def handleJob (stopping : Bool) (j : Job) : HandleJobResult :=
  let wp := workPhase stopping j
  if wp.propagated then
    ⟨wp.errorsHandled, wp.handlerFailures, 0, true⟩
  else
    ⟨wp.errorsHandled, wp.handlerFailures, 1,
      if j.cleanupFails then stopping else false⟩

/-- A job whose `work()` raises a domain `Exception` and whose error
handler itself fails. -/
def jobDom : Job :=
  { name := "d"
    workOutcome := WorkOutcome.excFault ⟨42, "boom"⟩
    handleErrorFails := fun _ => true
    cleanupFails := false }

/-- A job whose `work()` raises a completely unrecognized fault. -/
def jobUnknown : Job :=
  { name := "u"
    workOutcome := WorkOutcome.unknownFault
    handleErrorFails := fun _ => false
    cleanupFails := false }

/-- A job whose `work()` succeeds but whose `cleanup` raises. -/
def jobCleanupFail : Job :=
  { name := "c"
    workOutcome := WorkOutcome.ok
    handleErrorFails := fun _ => false
    cleanupFails := true }

/-- A job whose `work()` raises `std::bad_alloc`. -/
def jobOOM : Job :=
  { name := "o"
    workOutcome := WorkOutcome.badAlloc "alloc"
    handleErrorFails := fun _ => true
    cleanupFails := false }

/-- Environment of one iteration of the `while` loop of
`DispatcherThread::run`: the `_stopping` value read at the top, the
results of the successive `_readyJobs.pop` calls of the drain (each
successful pop yields `some jobId`, or `none` for a null job, which the
code skips), whether `_readyJobs.empty()` holds at the re-check under
`_waitLock`, the `tooManyThreads()` answer after the wait, and the
`TRI_microtime()` sample (microseconds) taken at the top. -/
structure IterEnv where
  stopping : Bool
  drained : List (Option Nat)
  recheckEmpty : Bool
  tooMany : Bool
  now : Nat

/-- Observable action of the scheduling loop. -/
inductive Event
  | poll (stopping : Bool)
  | pop (jobId : Nat)
  | incrWaiting
  | decrWaiting
  | recheckAbort
  | wait (timeoutMicros : Nat)
  | shrinkCheck (tooMany : Bool)
  | microSleep (micros : Nat)
  | removeStartedThread
deriving Repr, DecidableEq

/-- The `grace` window of `run`: `double grace = 0.2` seconds, in
microseconds. -/
def grace : Nat := 200000

/-- The condition-variable timeout of `run`:
`(1 + ((n >> 3) % 9)) * 100 * 1000` microseconds, where `n` is
`(uintptr_t) this`, the thread's identity. -/
def parkTimeout (n : Nat) : Nat := (1 + ((n >>> 3) % 9)) * 100 * 1000

/-- The micro-sleep of `run`: `usleep(1 + ((n >> 3) % 19))`. -/
def microSleepTime (n : Nat) : Nat := 1 + ((n >>> 3) % 19)

/-- The non-null jobs obtained by the drain loop of one iteration. -/
def drainJobs (e : IterEnv) : List Nat := e.drained.filterMap id

/-- The pop events of the drain loop of one iteration. -/
def drainEvents (e : IterEnv) : List Event := (drainJobs e).map Event.pop

/-- Value of `worked` after the drain loop: `worked = now` is executed
once per successful non-null pop, so `worked` becomes the iteration's
`now` sample iff at least one job was popped. -/
def newWorked (e : IterEnv) (worked : Nat) : Nat :=
  if drainJobs e = [] then worked else e.now

/-- Result of one loop iteration: the events it emitted (after the
top-of-loop poll), the updated `worked`, and whether it executed the
`break` (shrink decision). -/
structure IterResult where
  events : List Event
  worked : Nat
  breakLoop : Bool
deriving Repr, DecidableEq

/-- Body of one iteration of the `while` loop of `DispatcherThread::run`
(after the `_stopping` poll): drain the ready queue; then, if
`worked + grace < now`, increment `_nrWaiting`, take `_waitLock` and
re-check the queue — if it is non-empty, decrement `_nrWaiting` and
`continue`; otherwise wait on the condition variable with the staggered
timeout, decrement `_nrWaiting`, and `break` iff `tooManyThreads()`;
else if `worked < now`, micro-sleep. -/
def iterBody (tid : Nat) (e : IterEnv) (worked : Nat) : IterResult :=
  let w := newWorked e worked
  if w + grace < e.now then
    if e.recheckEmpty = false then
      ⟨drainEvents e
         ++ [Event.incrWaiting, Event.recheckAbort, Event.decrWaiting],
       w, false⟩
    else
      ⟨drainEvents e
         ++ [Event.incrWaiting, Event.wait (parkTimeout tid),
             Event.decrWaiting, Event.shrinkCheck e.tooMany],
       w, e.tooMany⟩
  else if w < e.now then
    ⟨drainEvents e ++ [Event.microSleep (microSleepTime tid)], w, false⟩
  else
    ⟨drainEvents e, w, false⟩

/-- The events of the idle decision of one iteration, as a function of
the post-drain `worked`; `iterBody`'s event list is the drain events
followed by this suffix (`iterBody_eq`). -/
def idleSuffix (tid : Nat) (e : IterEnv) (w : Nat) : List Event :=
  if w + grace < e.now then
    if e.recheckEmpty = false then
      [Event.incrWaiting, Event.recheckAbort, Event.decrWaiting]
    else
      [Event.incrWaiting, Event.wait (parkTimeout tid),
       Event.decrWaiting, Event.shrinkCheck e.tooMany]
  else if w < e.now then
    [Event.microSleep (microSleepTime tid)]
  else []

/-- Whether one iteration executes the `break`: the park branch was
taken, the queue was still empty at the re-check, and `tooManyThreads()`
answered true after the wait. -/
def iterBreak (e : IterEnv) (w : Nat) : Bool :=
  decide (w + grace < e.now) && e.recheckEmpty && e.tooMany

/-- The `while (!_queue->_stopping)` loop of `DispatcherThread::run`,
driven by a list of iteration environments, returning the event trace
and whether the loop exited (observed `_stopping`, or broke to shrink)
within the supplied environments; on exit
`_queue->removeStartedThread(this)` is the final action. -/
def runAux (tid : Nat) : List IterEnv → Nat → List Event × Bool
  | [], _ => ([], false)
  | e :: rest, worked =>
    if e.stopping then
      ([Event.poll true, Event.removeStartedThread], true)
    else
      let r := iterBody tid e worked
      if r.breakLoop then
        (Event.poll false :: (r.events ++ [Event.removeStartedThread]), true)
      else
        ((Event.poll false :: (r.events ++ (runAux tid rest r.worked).1)),
         (runAux tid rest r.worked).2)

/-- The event trace of `DispatcherThread::run`. -/
def run (tid : Nat) (es : List IterEnv) (worked : Nat) : List Event :=
  (runAux tid es worked).1

/-- Whether the loop of `DispatcherThread::run` exited within the
supplied environments. -/
def runExits (tid : Nat) (es : List IterEnv) (worked : Nat) : Bool :=
  (runAux tid es worked).2

/-- Recognizer for pop events. -/
def isPop : Event → Bool
  | Event.pop _ => true
  | _ => false

/-- Recognizer for condition-variable wait events. -/
def isWait : Event → Bool
  | Event.wait _ => true
  | _ => false

/-- Recognizer for the `removeStartedThread` event. -/
def isRemove : Event → Bool
  | Event.removeStartedThread => true
  | _ => false

/-- Number of jobs popped (and handed to `handleJob`) in a trace. -/
def popCount (evs : List Event) : Nat := evs.countP isPop

/-- Number of condition-variable waits in a trace. -/
def waitCount (evs : List Event) : Nat := evs.countP isWait

/-- Number of `removeStartedThread` calls in a trace. -/
def removeCount (evs : List Event) : Nat := evs.countP isRemove

/-- Checks that every `tooManyThreads()` consultation (`shrinkCheck`) in
a trace occurs immediately after a park/wake cycle, i.e. directly after
a condition-variable `wait` followed by the `_nrWaiting` decrement. -/
def shrinkAfterWakeOnly : List Event → Bool
  | [] => true
  | Event.wait _ :: Event.decrWaiting :: Event.shrinkCheck _ :: rest =>
      shrinkAfterWakeOnly rest
  | Event.shrinkCheck _ :: _ => false
  | _ :: rest => shrinkAfterWakeOnly rest

/-- Checks the `_nrWaiting` discipline of a trace, tracking the calling
thread's own contribution `b` to the parked counter: an increment only
from a balanced state, a decrement only while counted, and no poll, pop,
micro-sleep or thread removal while still counted as waiting. -/
def waitingBalanceOK : List Event → Nat → Bool
  | [], b => b == 0
  | Event.poll _ :: rest, b => (b == 0) && waitingBalanceOK rest b
  | Event.pop _ :: rest, b => (b == 0) && waitingBalanceOK rest b
  | Event.incrWaiting :: rest, b => (b == 0) && waitingBalanceOK rest 1
  | Event.decrWaiting :: rest, b => (b == 1) && waitingBalanceOK rest 0
  | Event.microSleep _ :: rest, b => (b == 0) && waitingBalanceOK rest b
  | Event.removeStartedThread :: rest, b => (b == 0) && waitingBalanceOK rest b
  | _ :: rest, b => waitingBalanceOK rest b

/-- A shutdown iteration environment with jobs still in the queue. -/
def envStop : IterEnv :=
  { stopping := true, drained := [some 1], recheckEmpty := true
    tooMany := false, now := 0 }

/-- An environment with two jobs ready. -/
def envJobs : IterEnv :=
  { stopping := false, drained := [some 2, some 3], recheckEmpty := true
    tooMany := false, now := 0 }

/-- An empty-queue environment whose idle time is exactly the grace
window: `now - worked = 200000` for `worked = 1000000`. -/
def envBoundary : IterEnv :=
  { stopping := false, drained := [], recheckEmpty := false
    tooMany := false, now := 1200000 }

/-- An idle environment where the re-check under the lock finds the
queue non-empty. -/
def envAbort : IterEnv :=
  { stopping := false, drained := [], recheckEmpty := false
    tooMany := false, now := 1000000 }

/-- An environment with two non-null pops and one null pop. -/
def envTwo : IterEnv :=
  { stopping := false, drained := [some 7, none, some 8], recheckEmpty := true
    tooMany := false, now := 500000 }

/-- An idle environment that parks and is told the pool is
over-provisioned. -/
def envPark : IterEnv :=
  { stopping := false, drained := [], recheckEmpty := true
    tooMany := true, now := 1000000 }

end DispatcherThread

/-- A completion provider (`Completer`), opaque to the factory. -/
structure Completer where
  key : Nat
deriving Repr, DecidableEq

/-- The line-editing implementations the factory can construct
(`LinenoiseShell`, `ReadlineShell`), each remembering the history store
and completion provider it was constructed from. -/
inductive ShellImplementation
  | linenoiseShell (history : String) (completer : Completer)
  | readlineShell (history : String) (completer : Completer)
deriving Repr, DecidableEq

/-- `ShellImplFactory::buildShell`: the compile-time platform branch —
`LinenoiseShell` under `_WIN32`, `LinenoiseShell` under
`TRI_HAVE_LINENOISE`, `ReadlineShell` otherwise — with the two
preprocessor conditions as parameters. -/
def buildShell (isWindows haveLinenoise : Bool) (history : String)
    (completer : Completer) : ShellImplementation :=
  if isWindows then ShellImplementation.linenoiseShell history completer
  else if haveLinenoise then ShellImplementation.linenoiseShell history completer
  else ShellImplementation.readlineShell history completer

namespace DispatcherThread

/-- C1: a domain error from `work()` is routed to the job's own
`handleError`; the work phase of `handleJob` lets an exception propagate
exactly when an unrecognized fault is raised while the shutdown flag is
set; and the behaviour of the error handler (failing or not) never
changes what propagates, which errors were handled, or whether cleanup
runs — a failing handler is logged and swallowed. -/
theorem handleJob_error_containment (stopping : Bool) (j : Job) :
    (∀ e, j.workOutcome = WorkOutcome.excFault e →
        (handleJob stopping j).errorsHandled = [e])
  ∧ ((workPhase stopping j).propagated = true ↔
        (stopping = true ∧ j.workOutcome = WorkOutcome.unknownFault))
  ∧ (∀ f, (handleJob stopping { j with handleErrorFails := f }).propagated
          = (handleJob stopping j).propagated
      ∧ (handleJob stopping { j with handleErrorFails := f }).cleanupCalls
          = (handleJob stopping j).cleanupCalls
      ∧ (handleJob stopping { j with handleErrorFails := f }).errorsHandled
          = (handleJob stopping j).errorsHandled) := by
  refine ⟨?_, ?_, ?_⟩
  · intro e he
    cases j
    cases he
    cases stopping <;> simp [handleJob, workPhase]
  · cases hw : j.workOutcome <;> cases stopping <;>
      simp [workPhase, hw]
  · intro f
    cases hw : j.workOutcome <;> cases stopping <;>
      simp [handleJob, workPhase, hw]

/-- C1 witness: for `jobDom` the raised domain error `⟨42, "boom"⟩` is
handed to `handleError`, and for `jobUnknown` under shutdown the fault
propagates. -/
theorem handleJob_error_containment_witness :
    (handleJob false jobDom).errorsHandled = [⟨42, "boom"⟩]
  ∧ (workPhase true jobUnknown).propagated = true :=
  ⟨(handleJob_error_containment false jobDom).1 ⟨42, "boom"⟩ rfl,
   (handleJob_error_containment true jobUnknown).2.1.mpr ⟨rfl, rfl⟩⟩

/-- C2 counterexample: when `work()` raises an unrecognized fault while
the shutdown flag is set, `handleJob` re-throws before the cleanup block,
so `cleanup` is not invoked at all — refuting "cleanup is invoked exactly
once regardless of whether work() succeeded or failed". -/
theorem handleJob_cleanup_skipped_cex :
    (handleJob true jobUnknown).cleanupCalls = 0
  ∧ (handleJob true jobUnknown).cleanupCalls ≠ 1 := by
  exact ⟨by decide, by decide⟩

/-- C2 (amended): unless `work()` raised an unrecognized fault while the
shutdown flag was set (in which case `handleJob` unwinds at once without
cleanup), `cleanup(queue)` is invoked exactly once, and a failure of
`cleanup` propagates exactly when the shutdown flag is set — otherwise it
is logged and swallowed. -/
theorem handleJob_cleanup_once (stopping : Bool) (j : Job)
    (h : ¬ (stopping = true ∧ j.workOutcome = WorkOutcome.unknownFault)) :
    (handleJob stopping j).cleanupCalls = 1
  ∧ (handleJob stopping j).propagated = (j.cleanupFails && stopping) := by
  have hw : (workPhase stopping j).propagated = false := by
    cases hwo : j.workOutcome <;> cases stopping <;>
      simp_all [workPhase]
  cases hc : j.cleanupFails <;> cases stopping <;>
    simp [handleJob, hw, hc]

/-- C2 witness: a job with failing cleanup during shutdown still gets its
single cleanup call, and the cleanup failure propagates. -/
theorem handleJob_cleanup_once_witness :
    (handleJob true jobCleanupFail).cleanupCalls = 1
  ∧ (handleJob true jobCleanupFail).propagated
      = (jobCleanupFail.cleanupFails && true) :=
  handleJob_cleanup_once true jobCleanupFail (by decide)

/-- C5: a `bad_alloc` from `work()` is wrapped as
`TRI_ERROR_OUT_OF_MEMORY` carrying the original message; a generic
`std::exception` is wrapped as `TRI_ERROR_INTERNAL` carrying the original
message; an unrecognized fault outside shutdown is wrapped as
`TRI_ERROR_INTERNAL` with a generic message; in each case the wrapped
error is passed to `handleError`, and a failure of `handleError` itself
never changes what propagates. -/
theorem workPhase_wrapping (stopping : Bool) (j : Job) :
    (∀ msg, j.workOutcome = WorkOutcome.badAlloc msg →
        (workPhase stopping j).errorsHandled
          = [⟨TRI_ERROR_OUT_OF_MEMORY, "job failed with bad_alloc: " ++ msg⟩])
  ∧ (∀ msg, j.workOutcome = WorkOutcome.stdFault msg →
        (workPhase stopping j).errorsHandled
          = [⟨TRI_ERROR_INTERNAL, "job failed with error: " ++ msg⟩])
  ∧ (stopping = false → j.workOutcome = WorkOutcome.unknownFault →
        (workPhase stopping j).errorsHandled
          = [⟨TRI_ERROR_INTERNAL, "job failed with unknown error"⟩])
  ∧ (∀ f, (workPhase stopping { j with handleErrorFails := f }).propagated
        = (workPhase stopping j).propagated) := by
  refine ⟨?_, ?_, ?_, ?_⟩
  · intro msg hm
    cases j
    cases hm
    simp [workPhase]
  · intro msg hm
    cases j
    cases hm
    simp [workPhase]
  · intro hs hm
    cases j
    cases hm
    cases hs
    simp [workPhase]
  · intro f
    cases hw : j.workOutcome <;> cases stopping <;>
      simp [workPhase, hw]

/-- C5 witness: `jobOOM` raised a `bad_alloc` with message `alloc`, and
`handleError` receives the out-of-memory wrapper with that message. -/
theorem workPhase_wrapping_witness :
    (workPhase false jobOOM).errorsHandled
      = [⟨TRI_ERROR_OUT_OF_MEMORY, "job failed with bad_alloc: alloc"⟩] :=
  (workPhase_wrapping false jobOOM).1 "alloc" rfl

/-- Unpacking `iterBody` into drain events, idle suffix, updated
`worked` and break decision. -/
theorem iterBody_eq (tid : Nat) (e : IterEnv) (w : Nat) :
    iterBody tid e w
      = ⟨drainEvents e ++ idleSuffix tid e (newWorked e w),
         newWorked e w, iterBreak e (newWorked e w)⟩ := by
  simp only [iterBody, idleSuffix, iterBreak]
  by_cases h1 : newWorked e w + grace < e.now
  · by_cases h2 : e.recheckEmpty = false
    · simp [h1, h2]
    · have h2' : e.recheckEmpty = true := by
        cases hrc : e.recheckEmpty
        · exact absurd hrc h2
        · rfl
      simp [h1, h2']
  · by_cases h3 : newWorked e w < e.now
    · simp [h1, h3]
    · simp [h1, h3]

/-- Events component of `iterBody_eq`. -/
theorem iterBody_events (tid : Nat) (e : IterEnv) (w : Nat) :
    (iterBody tid e w).events
      = drainEvents e ++ idleSuffix tid e (newWorked e w) := by
  rw [iterBody_eq]

/-- Worked component of `iterBody_eq`. -/
theorem iterBody_worked (tid : Nat) (e : IterEnv) (w : Nat) :
    (iterBody tid e w).worked = newWorked e w := by
  rw [iterBody_eq]

/-- Break component of `iterBody_eq`. -/
theorem iterBody_breakLoop (tid : Nat) (e : IterEnv) (w : Nat) :
    (iterBody tid e w).breakLoop = iterBreak e (newWorked e w) := by
  rw [iterBody_eq]

/-- Unfolding `run` at a stopping environment. -/
theorem run_cons_stop (tid w : Nat) (e : IterEnv) (rest : List IterEnv)
    (hs : e.stopping = true) :
    run tid (e :: rest) w = [Event.poll true, Event.removeStartedThread]
  ∧ runExits tid (e :: rest) w = true := by
  constructor <;> simp [run, runExits, runAux, hs]

/-- Unfolding `run` at an iteration that breaks to shrink. -/
theorem run_cons_break (tid w : Nat) (e : IterEnv) (rest : List IterEnv)
    (hs : e.stopping = false) (hb : (iterBody tid e w).breakLoop = true) :
    run tid (e :: rest) w
      = Event.poll false
          :: ((iterBody tid e w).events ++ [Event.removeStartedThread])
  ∧ runExits tid (e :: rest) w = true := by
  constructor <;> simp [run, runExits, runAux, hs, hb]

/-- Unfolding `run` at an iteration that continues looping. -/
theorem run_cons_cont (tid w : Nat) (e : IterEnv) (rest : List IterEnv)
    (hs : e.stopping = false) (hb : (iterBody tid e w).breakLoop = false) :
    run tid (e :: rest) w
      = Event.poll false
          :: ((iterBody tid e w).events
                ++ run tid rest ((iterBody tid e w).worked))
  ∧ runExits tid (e :: rest) w
      = runExits tid rest ((iterBody tid e w).worked) := by
  constructor <;> simp [run, runExits, runAux, hs, hb]

/-- C3: the shutdown flag is polled at the top of every loop iteration,
and an iteration that observes it true ends the loop at once: no job is
popped from the ready queue (whatever the rest of the schedule holds)
and the thread deregisters itself. -/
theorem run_polls_and_stops (tid w : Nat) (e : IterEnv)
    (rest : List IterEnv) :
    (run tid (e :: rest) w).head? = some (Event.poll e.stopping)
  ∧ (e.stopping = true →
        run tid (e :: rest) w
            = [Event.poll true, Event.removeStartedThread]
        ∧ popCount (run tid (e :: rest) w) = 0) := by
  constructor
  · cases hs : e.stopping
    · cases hb : (iterBody tid e w).breakLoop
      · rw [(run_cons_cont tid w e rest hs hb).1]; rfl
      · rw [(run_cons_break tid w e rest hs hb).1]; rfl
    · rw [(run_cons_stop tid w e rest hs).1]; rfl
  · intro hs
    have hr := (run_cons_stop tid w e rest hs).1
    exact ⟨hr, by rw [hr]; rfl⟩

/-- C3 witness: with shutdown observed and a job still enqueued (and more
jobs in the following schedule), the thread exits at once and pops
nothing. -/
theorem run_polls_and_stops_witness :
    run 0 [envStop, envJobs] 0 = [Event.poll true, Event.removeStartedThread]
  ∧ popCount (run 0 [envStop, envJobs] 0) = 0 :=
  (run_polls_and_stops 0 0 envStop [envJobs]).2 rfl

/-- C4 counterexample: with `worked = 1000000` and `now = 1200000` the
idle time equals the grace window exactly, yet the thread takes the
micro-sleep branch and never increments `_nrWaiting` — the park branch
requires the idle time to strictly exceed the window
(`worked + grace < now`). -/
theorem iter_park_boundary_cex :
    envBoundary.now - 1000000 = grace
  ∧ (iterBody 0 envBoundary 1000000).events = [Event.microSleep 1]
  ∧ Event.incrWaiting ∉ (iterBody 0 envBoundary 1000000).events := by
  exact ⟨by decide, by decide, by decide⟩

/-- C4 (amended): when the idle time strictly exceeds the 200ms grace
window, the thread increments `_nrWaiting`, takes the park lock and
re-checks the queue; finding it non-empty, it decrements `_nrWaiting`
and goes back to draining without ever waiting on the condition
variable. -/
theorem iter_park_recheck (tid w : Nat) (e : IterEnv)
    (hidle : newWorked e w + grace < e.now)
    (hne : e.recheckEmpty = false) :
    (iterBody tid e w).events
      = drainEvents e
          ++ [Event.incrWaiting, Event.recheckAbort, Event.decrWaiting]
  ∧ (iterBody tid e w).breakLoop = false
  ∧ ∀ t, Event.wait t ∉ (iterBody tid e w).events := by
  refine ⟨?_, ?_, ?_⟩
  · rw [iterBody_events]
    simp [idleSuffix, hidle, hne]
  · rw [iterBody_breakLoop]
    simp [iterBreak, hne]
  · intro t
    rw [iterBody_events]
    simp [idleSuffix, hidle, hne, drainEvents, List.mem_map]

/-- C4 witness: in `envAbort` (idle past the window, queue non-empty at
the re-check) the iteration aborts the park and never waits. -/
theorem iter_park_recheck_witness :
    (iterBody 0 envAbort 0).events
      = drainEvents envAbort
          ++ [Event.incrWaiting, Event.recheckAbort, Event.decrWaiting]
  ∧ Event.wait (parkTimeout 0) ∉ (iterBody 0 envAbort 0).events :=
  ⟨(iter_park_recheck 0 0 envAbort (by decide) (by decide)).1,
   (iter_park_recheck 0 0 envAbort (by decide) (by decide)).2.2
     (parkTimeout 0)⟩

/-- C6: the drain phase records the iteration's wall-clock sample as
`worked` exactly when a job was popped (otherwise `worked` is
unchanged), and the park decision of the same iteration compares
precisely that updated `worked` against the grace window. -/
theorem iter_lastWorked (tid w : Nat) (e : IterEnv) :
    (iterBody tid e w).worked = (if drainJobs e = [] then w else e.now)
  ∧ ((Event.incrWaiting ∈ (iterBody tid e w).events)
      ↔ (iterBody tid e w).worked + grace < e.now) := by
  constructor
  · rw [iterBody_worked]; rfl
  · rw [iterBody_events, iterBody_worked, List.mem_append]
    constructor
    · intro h
      rcases h with h | h
      · simp [drainEvents, List.mem_map] at h
      · unfold idleSuffix at h
        by_cases h1 : newWorked e w + grace < e.now
        · exact h1
        · by_cases h3 : newWorked e w < e.now <;> simp [h1, h3] at h
    · intro h1
      right
      unfold idleSuffix
      by_cases h2 : e.recheckEmpty = false <;> simp [h1, h2]

/-- C6 witness: in `envTwo` (two successful pops) `worked` becomes the
iteration's `now` sample. -/
theorem iter_lastWorked_witness :
    (iterBody 3 envTwo 9).worked
      = (if drainJobs envTwo = [] then 9 else envTwo.now) :=
  (iter_lastWorked 3 9 envTwo).1

/-- C7: the park timeout is a deterministic function of the thread's
identity, `(1 + ((n >> 3) % 9)) * 100 * 1000` microseconds, always
between 100ms and 1000ms; every wait event of the loop uses exactly this
timeout for the thread's identity; and distinct identities can receive
distinct timeouts. -/
theorem parkTimeout_range (n : Nat) :
    (100000 ≤ parkTimeout n ∧ parkTimeout n ≤ 1000000)
  ∧ (∀ (tid w : Nat) (e : IterEnv) (t : Nat),
        Event.wait t ∈ (iterBody tid e w).events → t = parkTimeout tid)
  ∧ parkTimeout 0 ≠ parkTimeout 8 := by
  refine ⟨?_, ?_, by decide⟩
  · have h : (n >>> 3) % 9 < 9 := Nat.mod_lt _ (by decide)
    unfold parkTimeout
    omega
  · intro tid w e t ht
    rw [iterBody_events] at ht
    rcases List.mem_append.mp ht with h | h
    · simp [drainEvents, List.mem_map] at h
    · unfold idleSuffix at h
      by_cases h1 : newWorked e w + grace < e.now
      · by_cases h2 : e.recheckEmpty = false
        · simp [h1, h2] at h
        · simp [h1, h2] at h
          exact h
      · by_cases h3 : newWorked e w < e.now <;> simp [h1, h3] at h

/-- C7 witness: the bounds at identity 8. -/
theorem parkTimeout_range_witness :
    100000 ≤ parkTimeout 8 ∧ parkTimeout 8 ≤ 1000000 :=
  ⟨(parkTimeout_range 8).1.1, (parkTimeout_range 8).1.2⟩

/-- Pop events are neutral for a predicate false on pops. -/
theorem countP_map_pop (p : Event → Bool)
    (hp : ∀ j, p (Event.pop j) = false) (js : List Nat) :
    List.countP p (js.map Event.pop) = 0 := by
  induction js with
  | nil => rfl
  | cons j js ih => simp [List.countP_cons, hp, ih]

/-- Drain events are neutral for a predicate false on pops. -/
theorem countP_drain_zero (p : Event → Bool)
    (hp : ∀ j, p (Event.pop j) = false) (e : IterEnv) :
    List.countP p (drainEvents e) = 0 :=
  countP_map_pop p hp (drainJobs e)

/-- The idle suffix holds no `removeStartedThread` event. -/
theorem countP_idleSuffix_remove (tid : Nat) (e : IterEnv) (w : Nat) :
    List.countP isRemove (idleSuffix tid e w) = 0 := by
  unfold idleSuffix
  split
  · split
    · rfl
    · rfl
  · split
    · rfl
    · rfl

/-- No iteration emits a `removeStartedThread` event. -/
theorem removeCount_iterEvents (tid : Nat) (e : IterEnv) (w : Nat) :
    removeCount ((iterBody tid e w).events) = 0 := by
  rw [iterBody_events]
  unfold removeCount
  rw [List.countP_append, countP_drain_zero isRemove (fun j => rfl) e,
      countP_idleSuffix_remove]

/-- `removeCount` skips a full iteration segment. -/
theorem removeCount_iterSegment (b : Bool) (tid : Nat) (e : IterEnv)
    (w : Nat) (l : List Event) :
    removeCount (Event.poll b :: ((iterBody tid e w).events ++ l))
      = removeCount l := by
  have h := removeCount_iterEvents tid e w
  unfold removeCount at h ⊢
  rw [List.countP_cons, List.countP_append, h]
  simp [isRemove]

/-- A poll is transparent to `shrinkAfterWakeOnly`. -/
theorem saw_cons_poll (b : Bool) (l : List Event) :
    shrinkAfterWakeOnly (Event.poll b :: l) = shrinkAfterWakeOnly l := rfl

/-- Pop events are transparent to `shrinkAfterWakeOnly`. -/
theorem saw_map_pop (js : List Nat) (l : List Event) :
    shrinkAfterWakeOnly (js.map Event.pop ++ l) = shrinkAfterWakeOnly l := by
  induction js with
  | nil => rfl
  | cons j js ih => exact ih

/-- Drain events are transparent to `shrinkAfterWakeOnly`. -/
theorem saw_drainEvents (e : IterEnv) (l : List Event) :
    shrinkAfterWakeOnly (drainEvents e ++ l) = shrinkAfterWakeOnly l :=
  saw_map_pop (drainJobs e) l

/-- Every idle suffix is accepted by `shrinkAfterWakeOnly`: its only
possible `shrinkCheck` comes right after its wait and decrement. -/
theorem saw_idleSuffix (tid : Nat) (e : IterEnv) (w : Nat)
    (l : List Event) :
    shrinkAfterWakeOnly (idleSuffix tid e w ++ l)
      = shrinkAfterWakeOnly l := by
  unfold idleSuffix
  split
  · split
    · rfl
    · rfl
  · split
    · rfl
    · rfl

/-- A full iteration segment is transparent to `shrinkAfterWakeOnly`. -/
theorem saw_iterSegment (b : Bool) (tid : Nat) (e : IterEnv) (w : Nat)
    (l : List Event) :
    shrinkAfterWakeOnly (Event.poll b :: ((iterBody tid e w).events ++ l))
      = shrinkAfterWakeOnly l := by
  rw [saw_cons_poll, iterBody_events, List.append_assoc, saw_drainEvents,
      saw_idleSuffix]

/-- Every run trace consults `tooManyThreads()` only immediately after a
wait/decrement pair. -/
theorem run_shrink_placed (tid : Nat) (es : List IterEnv) (w : Nat) :
    shrinkAfterWakeOnly (run tid es w) = true := by
  induction es generalizing w with
  | nil => rfl
  | cons e rest ih =>
    cases hs : e.stopping
    · cases hb : (iterBody tid e w).breakLoop
      · rw [(run_cons_cont tid w e rest hs hb).1, saw_iterSegment]
        exact ih _
      · rw [(run_cons_break tid w e rest hs hb).1, saw_iterSegment]
        rfl
    · rw [(run_cons_stop tid w e rest hs).1]
      rfl

/-- Remove-call structure of a run trace: no `removeStartedThread` while
the loop is still going, and exactly one, as the final event, when the
loop has exited. -/
theorem run_remove_structure (tid : Nat) (es : List IterEnv) (w : Nat) :
    removeCount (run tid es w)
      = (if runExits tid es w = true then 1 else 0)
  ∧ (runExits tid es w = true →
      ∃ pre, run tid es w = pre ++ [Event.removeStartedThread]
        ∧ removeCount pre = 0) := by
  induction es generalizing w with
  | nil =>
    refine ⟨rfl, ?_⟩
    intro h
    simp [runExits, runAux] at h
  | cons e rest ih =>
    cases hs : e.stopping
    · cases hb : (iterBody tid e w).breakLoop
      · have hr := (run_cons_cont tid w e rest hs hb).1
        have hx := (run_cons_cont tid w e rest hs hb).2
        rw [hr, hx, removeCount_iterSegment]
        refine ⟨(ih _).1, ?_⟩
        intro hex
        obtain ⟨pre, hpre, hzero⟩ := (ih _).2 hex
        refine ⟨Event.poll false :: ((iterBody tid e w).events ++ pre),
                ?_, ?_⟩
        · rw [hpre]
          simp
        · rw [removeCount_iterSegment]
          exact hzero
      · have hr := (run_cons_break tid w e rest hs hb).1
        have hx := (run_cons_break tid w e rest hs hb).2
        rw [hr, hx, removeCount_iterSegment]
        refine ⟨rfl, ?_⟩
        intro _
        refine ⟨Event.poll false :: (iterBody tid e w).events, ?_, ?_⟩
        · simp
        · have h := removeCount_iterSegment false tid e w []
          simpa using h
    · have hr := (run_cons_stop tid w e rest hs).1
      have hx := (run_cons_stop tid w e rest hs).2
      rw [hr, hx]
      exact ⟨rfl, fun _ => ⟨[Event.poll true], rfl, rfl⟩⟩

/-- A `shrinkCheck true` event inside one iteration's events forces that
iteration's break decision. -/
theorem shrinkTrue_in_events (tid : Nat) (e : IterEnv) (w : Nat)
    (h : Event.shrinkCheck true ∈ (iterBody tid e w).events) :
    (iterBody tid e w).breakLoop = true := by
  rw [iterBody_events] at h
  rw [iterBody_breakLoop]
  rcases List.mem_append.mp h with h | h
  · simp [drainEvents, List.mem_map] at h
  · unfold idleSuffix at h
    unfold iterBreak
    by_cases h1 : newWorked e w + grace < e.now
    · by_cases h2 : e.recheckEmpty = false
      · simp [h1, h2] at h
      · have h2' : e.recheckEmpty = true := by
          cases hrc : e.recheckEmpty
          · exact absurd hrc h2
          · rfl
        simp [h1, h2'] at h
        simp [h1, h2', ← h]
    · by_cases h3 : newWorked e w < e.now <;> simp [h1, h3] at h

/-- A `shrinkCheck true` answer makes the loop exit. -/
theorem run_shrinkTrue_exits (tid : Nat) (es : List IterEnv) (w : Nat) :
    Event.shrinkCheck true ∈ run tid es w → runExits tid es w = true := by
  induction es generalizing w with
  | nil =>
    intro h
    simp [run, runAux] at h
  | cons e rest ih =>
    intro h
    cases hs : e.stopping
    · cases hb : (iterBody tid e w).breakLoop
      · rw [(run_cons_cont tid w e rest hs hb).1] at h
        rw [(run_cons_cont tid w e rest hs hb).2]
        rcases List.mem_cons.mp h with h | h
        · exact absurd h (by simp)
        · rcases List.mem_append.mp h with h | h
          · have hbt := shrinkTrue_in_events tid e w h
            rw [hb] at hbt
            exact absurd hbt (by simp)
          · exact ih _ h
      · exact (run_cons_break tid w e rest hs hb).2
    · exact (run_cons_stop tid w e rest hs).2

/-- An iteration that breaks has waited on the condition variable. -/
theorem break_has_wait (tid : Nat) (e : IterEnv) (w : Nat)
    (hb : (iterBody tid e w).breakLoop = true) :
    0 < waitCount ((iterBody tid e w).events) := by
  rw [iterBody_breakLoop] at hb
  rw [iterBody_events]
  unfold iterBreak at hb
  by_cases h1 : newWorked e w + grace < e.now
  · have h2 : e.recheckEmpty = true := by
      cases hrc : e.recheckEmpty
      · rw [hrc] at hb
        simp at hb
      · rfl
    unfold waitCount
    rw [List.countP_append, countP_drain_zero isWait (fun j => rfl) e]
    unfold idleSuffix
    simp [h1, h2, List.countP_cons, isWait]
  · simp [h1] at hb

/-- An exit of the loop with no wait in the trace can only be the
shutdown exit: the trace holds a `poll true`. -/
theorem run_exit_no_wait_stopped (tid : Nat) (es : List IterEnv)
    (w : Nat) :
    runExits tid es w = true → waitCount (run tid es w) = 0 →
      Event.poll true ∈ run tid es w := by
  induction es generalizing w with
  | nil =>
    intro h _
    simp [runExits, runAux] at h
  | cons e rest ih =>
    intro hex hwc
    cases hs : e.stopping
    · cases hb : (iterBody tid e w).breakLoop
      · rw [(run_cons_cont tid w e rest hs hb).1] at hwc ⊢
        rw [(run_cons_cont tid w e rest hs hb).2] at hex
        have hwc' :
            waitCount (run tid rest ((iterBody tid e w).worked)) = 0 := by
          unfold waitCount at hwc ⊢
          rw [List.countP_cons, List.countP_append] at hwc
          omega
        have hmem := ih _ hex hwc'
        exact List.mem_cons_of_mem _ (List.mem_append_right _ hmem)
      · exfalso
        have hw1 := break_has_wait tid e w hb
        rw [(run_cons_break tid w e rest hs hb).1] at hwc
        unfold waitCount at hwc hw1
        rw [List.countP_cons, List.countP_append] at hwc
        omega
    · rw [(run_cons_stop tid w e rest hs).1]
      exact List.mem_cons_self _ _

/-- C8: in every run trace, `tooManyThreads()` is consulted only
immediately after a completed park/wake cycle; `removeStartedThread`
happens exactly once — as the final event — when the loop exits, and
never while it is still running; a positive shrink answer makes the
loop exit; and an exit of a trace that never parked can only be the
shutdown exit. -/
theorem run_shrink_discipline (tid : Nat) (es : List IterEnv) (w : Nat) :
    shrinkAfterWakeOnly (run tid es w) = true
  ∧ removeCount (run tid es w)
      = (if runExits tid es w = true then 1 else 0)
  ∧ (runExits tid es w = true →
      ∃ pre, run tid es w = pre ++ [Event.removeStartedThread]
        ∧ removeCount pre = 0)
  ∧ (Event.shrinkCheck true ∈ run tid es w → runExits tid es w = true)
  ∧ (runExits tid es w = true → waitCount (run tid es w) = 0 →
      Event.poll true ∈ run tid es w) :=
  ⟨run_shrink_placed tid es w, (run_remove_structure tid es w).1,
   (run_remove_structure tid es w).2, run_shrinkTrue_exits tid es w,
   run_exit_no_wait_stopped tid es w⟩

/-- C8 witness: a thread parked in `envPark` is told to shrink, exits,
and deregisters exactly once as its final action. -/
theorem run_shrink_discipline_witness :
    shrinkAfterWakeOnly (run 8 [envPark] 0) = true
  ∧ (∃ pre, run 8 [envPark] 0 = pre ++ [Event.removeStartedThread]
      ∧ removeCount pre = 0)
  ∧ runExits 8 [envPark] 0 = true :=
  ⟨(run_shrink_discipline 8 [envPark] 0).1,
   (run_shrink_discipline 8 [envPark] 0).2.2.1 (by decide),
   (run_shrink_discipline 8 [envPark] 0).2.2.2.1 (by decide)⟩

/-- A poll is transparent to the waiting balance at a balanced state. -/
theorem wb_cons_poll (b : Bool) (l : List Event) :
    waitingBalanceOK (Event.poll b :: l) 0 = waitingBalanceOK l 0 := rfl

/-- Pop events are transparent to the waiting balance at a balanced
state. -/
theorem wb_map_pop (js : List Nat) (l : List Event) :
    waitingBalanceOK (js.map Event.pop ++ l) 0 = waitingBalanceOK l 0 := by
  induction js with
  | nil => rfl
  | cons j js ih => exact ih

/-- Drain events are transparent to the waiting balance at a balanced
state. -/
theorem wb_drainEvents (e : IterEnv) (l : List Event) :
    waitingBalanceOK (drainEvents e ++ l) 0 = waitingBalanceOK l 0 :=
  wb_map_pop (drainJobs e) l

/-- Every idle suffix keeps the waiting balance: it either never touches
`_nrWaiting` or increments it once and decrements it once before
anything else happens. -/
theorem wb_idleSuffix (tid : Nat) (e : IterEnv) (w : Nat)
    (l : List Event) :
    waitingBalanceOK (idleSuffix tid e w ++ l) 0
      = waitingBalanceOK l 0 := by
  unfold idleSuffix
  split
  · split
    · rfl
    · rfl
  · split
    · rfl
    · rfl

/-- A full iteration segment is transparent to the waiting balance. -/
theorem wb_iterSegment (b : Bool) (tid : Nat) (e : IterEnv) (w : Nat)
    (l : List Event) :
    waitingBalanceOK (Event.poll b :: ((iterBody tid e w).events ++ l)) 0
      = waitingBalanceOK l 0 := by
  rw [wb_cons_poll, iterBody_events, List.append_assoc, wb_drainEvents,
      wb_idleSuffix]

/-- C9: every run trace satisfies the `_nrWaiting` discipline — each
increment of the parked counter is matched by exactly one decrement
before the thread polls the flag again, pops a job, micro-sleeps, or
deregisters, so the thread never acts while still counted as waiting
and every idle episode leaves its own contribution at zero. -/
theorem run_waiting_balanced (tid : Nat) (es : List IterEnv) (w : Nat) :
    waitingBalanceOK (run tid es w) 0 = true := by
  induction es generalizing w with
  | nil => rfl
  | cons e rest ih =>
    cases hs : e.stopping
    · cases hb : (iterBody tid e w).breakLoop
      · rw [(run_cons_cont tid w e rest hs hb).1, wb_iterSegment]
        exact ih _
      · rw [(run_cons_break tid w e rest hs hb).1, wb_iterSegment]
        rfl
    · rw [(run_cons_stop tid w e rest hs).1]
      rfl

end DispatcherThread

/-- C10: `buildShell` returns a `LinenoiseShell` on Windows or when
linenoise is available and a `ReadlineShell` otherwise, in every case
constructed from exactly the given history store and completion
provider. -/
theorem buildShell_platform (isWindows haveLinenoise : Bool)
    (history : String) (completer : Completer) :
    buildShell isWindows haveLinenoise history completer
      = (if isWindows || haveLinenoise
          then ShellImplementation.linenoiseShell history completer
          else ShellImplementation.readlineShell history completer) := by
  cases isWindows <;> cases haveLinenoise <;> simp [buildShell]
